import Mathlib

/-!
Verification of the pylcogt orchestration driver (`pylcogt/main.py`) against its
natural-language specification.  The definitions below shallowly embed the data
model and the operations of `main.py`: the ordered stage registry, the argparse
choice validation for `--stage`, the stage-range branch logic, the telescope and
image query builders, the binning normalization, the stage dispatch loop, and the
side-effect order of `main` as an event trace.
-/

namespace PyLCOGT

/-- The ordered stage registry (`reduction_stages`, main.py lines 23-33): an
OrderedDict whose insertion order defines pipeline order.  We embed the key
sequence; the values (stage-processor constructors) are external collaborators. -/
def reduction_stages : List String :=
  ["ingest", "make_bias", "subtract_bias", "trim", "make_dark",
   "subtract_dark", "make_flat", "divide_flat", "solve_wcs", "make_catalog"]

/-- Runtime errors the embedded Python code can raise.  `typeError` models the
Python `TypeError` raised by `reduction_stage_list[starting_stage: ending_stage + 1]`
(main.py line 132): `ending_stage` is a string, so `ending_stage + 1` cannot be
evaluated, and strings are not valid list slice indices. -/
inductive PyError
  | typeError
  deriving DecidableEq, Repr

/-- Argparse-level rejection: a supplied value is not among an option's `choices`. -/
inductive ArgError
  | invalidChoice (option : String) (value : String)
  deriving DecidableEq, Repr

/-- The argparse validation of `--stage` (main.py lines 98-99):
`choices=reduction_stages.keys()` rejects any supplied value that is not exactly
a registered stage name.  The default `''` is not validated against `choices`
by argparse, so it passes. -/
def checkStageChoice (stage : String) : Except ArgError Unit :=
  if stage = "" ∨ stage ∈ reduction_stages then Except.ok ()
  else Except.error (ArgError.invalidChoice "stage" stage)

/-- The stage-subset branch logic of `main` (main.py lines 127-136):
if `args.stage` is nonempty and contains a dash, the code splits it into
`starting_stage, ending_stage` and evaluates
`reduction_stage_list[starting_stage: ending_stage + 1]`, which raises
`TypeError` in Python (string names are used directly as slice indices and
`str + int` is ill-typed); if nonempty without a dash it yields the singleton
`[args.stage]`; if empty it yields the whole registry order. -/
def stagesToDo (stage : String) : Except PyError (List String) :=
  if stage ≠ "" then
    if stage.data.contains (Char.ofNat 45) then Except.error PyError.typeError
    else Except.ok [stage]
  else Except.ok reduction_stages

/-- A telescope record (`dbs.Telescope` fields read by main.py lines 143-153). -/
structure Telescope where
  telescope_id : String
  site : String
  instrument : String
  camera_type : String
  deriving DecidableEq, Repr

/-- An image record (`dbs.Image` fields named in the spec; main.py lines 159-164
reads `filter_name` and `ccdsum`; the image type field is carried but, as the
query builder shows, never read by `main`). -/
structure Image where
  filter_name : String
  ccdsum : String
  image_type : String
  deriving DecidableEq, Repr

/-- The validated configuration delivered by argparse (main.py lines 87-120). -/
structure Args where
  epoch : String
  telescope : String
  instrument : String
  site : String
  camera_type : String
  stage : String
  raw_path : String
  processed_path : String
  filter : String
  binning : String
  image_type : String
  log_level : String
  ncpus : Nat
  deriving DecidableEq, Repr

/-- Binning normalization (main.py line 163): `args.binning.replace('x', ' ')`.
The pattern is the single character `x`, so Python's substring replace coincides
with replacing every `x` character by a space. -/
def ccdsumOf (binning : String) : String :=
  String.mk (binning.data.map (fun c => if c = Char.ofNat 120 then Char.ofNat 32 else c))

/-- The telescope query builder (main.py lines 141-153): starts from the neutral
`true()` predicate and conjoins an exact-match equality for each of site,
instrument, telescope id and camera type that is set to a nonempty value. -/
def telescope_query (args : Args) : Telescope → Bool := fun t =>
  let q := true
  let q := if args.site ≠ "" then q && (t.site == args.site) else q
  let q := if args.instrument ≠ "" then q && (t.instrument == args.instrument) else q
  let q := if args.telescope ≠ "" then q && (t.telescope_id == args.telescope) else q
  let q := if args.camera_type ≠ "" then q && (t.camera_type == args.camera_type) else q
  q

/-- The image query builder (main.py lines 157-164): starts from the neutral
`true()` predicate and conjoins an exact-match equality for the filter name and
for the normalized binning when those are set.  Note: `args.image_type` is never
consulted — the code builds no constraint from it. -/
def image_query (args : Args) : Image → Bool := fun i =>
  let q := true
  let q := if args.filter ≠ "" then q && (i.filter_name == args.filter) else q
  let q := if args.binning ≠ "" then q && (i.ccdsum == ccdsumOf args.binning) else q
  q

/-- The telescope set for the run (main.py line 155): the store rows matching
the telescope query. -/
def telescope_list (store : List Telescope) (args : Args) : List Telescope :=
  store.filter (telescope_query args)

/-- Everything a stage processor receives from the orchestrator: its constructor
arguments (main.py lines 171-172) and its `run` arguments (main.py line 173). -/
structure StageCall where
  stage : String
  raw_path : String
  processed_path : String
  image_pred : Image → Bool
  epochs : List Nat
  telescopes : List Telescope

/-- The dispatch loop (main.py lines 170-173) viewed as the sequence of calls it
issues: for each selected stage, construct the processor with
`(args.raw_path, args.processed_path, image_query)` and invoke `run` with
`(epoch_list, telescope_list)`. -/
def dispatchCalls (args : Args) (store : List Telescope) (epochs : List Nat)
    (stages : List String) : List StageCall :=
  stages.map fun s =>
    { stage := s,
      raw_path := args.raw_path,
      processed_path := args.processed_path,
      image_pred := image_query args,
      epochs := epochs,
      telescopes := telescope_list store args }

/-- A selected stage together with the behaviour of its (external) `run` call:
`runFails = true` means the stage processor raises when invoked. -/
structure Stage where
  name : String
  runFails : Bool
  deriving DecidableEq, Repr

/-- Observable actions of the dispatch loop: constructing a stage processor
(main.py lines 171-172) and invoking its `run` (main.py line 173). -/
inductive Event
  | construct (stage : String)
  | invoke (stage : String)
  deriving DecidableEq, Repr

/-- The two events a successfully dispatched stage produces, in order. -/
def stageEvents (s : Stage) : List Event :=
  [Event.construct s.name, Event.invoke s.name]

/-- The dispatch loop (main.py lines 170-173) with failure semantics: stages are
processed strictly in list order; each is constructed then invoked; a raising
`run` aborts the loop, propagating the failing stage's error (nothing catches
it), so no later stage is constructed or invoked. -/
def runLoop : List Stage → List Event × Option String
  | [] => ([], none)
  | s :: rest =>
    if s.runFails then ([Event.construct s.name, Event.invoke s.name], some s.name)
    else
      (Event.construct s.name :: Event.invoke s.name :: (runLoop rest).1, (runLoop rest).2)

/-- Epoch-expression failure (spec section 7 taxonomy). -/
inductive InvalidEpochError
  | invalidEpoch
  deriving DecidableEq, Repr

/-- Reads an eight-digit day code (e.g. `20151001`) from a character list. -/
def parseDateNat (s : List Char) : Option Nat :=
  if s.length = 8 ∧ s.all Char.isDigit then
    some (s.foldl (fun acc c => 10 * acc + (c.toNat - 48)) 0)
  else none

/-- Modelled from the spec: `date_utils.parse_epoch_string` (called at main.py
line 125) lives in `pylcogt/utils/date_utils.py`, which is not under `src/`.
Per spec section 4.1, an epoch expression is a single date or a start/end pair;
it expands to the ordered, deduplicated, inclusive sequence of days, and fails
with `InvalidEpochError` when the expression cannot be parsed into valid dates
or when start is after end.  Days are modelled as natural-number day codes. -/
def parse_epoch_string (epoch : String) : Except InvalidEpochError (List Nat) :=
  match (epoch.data.splitOn (Char.ofNat 45)).map parseDateNat with
  | [some d] => Except.ok [d]
  | [some d1, some d2] =>
    if d1 ≤ d2 then Except.ok ((List.range (d2 + 1 - d1)).map (fun i => d1 + i))
    else Except.error InvalidEpochError.invalidEpoch
  | _ => Except.error InvalidEpochError.invalidEpoch

/-- The kinds of metadata-store access `main` performs. -/
inductive StoreQuery
  | distinctSites
  | distinctInstruments
  | distinctTelescopeIds
  | distinctCameraTypes
  | telescopes
  deriving DecidableEq, Repr

/-- Observable side effects of `main`, in program order. -/
inductive MainEvent
  | storeQuery (q : StoreQuery)
  | epochParsed (days : List Nat)
  | stageDispatch (name : String)
  deriving DecidableEq, Repr

/-- Errors that abort `main` in the modelled fragment. -/
inductive MainError
  | invalidEpoch
  | stageTypeError
  deriving DecidableEq, Repr

/-- The four distinct-value store queries issued by `get_telescope_info`
(main.py lines 55-75), called unconditionally at the top of `main` (line 85). -/
def discoveryEvents : List MainEvent :=
  [MainEvent.storeQuery StoreQuery.distinctSites,
   MainEvent.storeQuery StoreQuery.distinctInstruments,
   MainEvent.storeQuery StoreQuery.distinctTelescopeIds,
   MainEvent.storeQuery StoreQuery.distinctCameraTypes]

/-- The observable side-effect order of `main` (main.py lines 78-173): first
`get_telescope_info` issues its four store queries (line 85), then the epoch
expression is parsed (line 125), then the stage subset is resolved (lines
127-136), then the telescope-selection store query runs (lines 139-155), and
finally the selected stages are dispatched in order (lines 170-173).  An error
truncates the trace at its point of occurrence. -/
def mainTrace (args : Args) : List MainEvent × Option MainError :=
  match parse_epoch_string args.epoch with
  | Except.error _ => (discoveryEvents, some MainError.invalidEpoch)
  | Except.ok days =>
    match stagesToDo args.stage with
    | Except.error _ =>
      (discoveryEvents ++ [MainEvent.epochParsed days], some MainError.stageTypeError)
    | Except.ok stages =>
      (discoveryEvents ++ MainEvent.epochParsed days ::
        MainEvent.storeQuery StoreQuery.telescopes :: stages.map MainEvent.stageDispatch,
       none)

/-- A configuration with every optional criterion unset. -/
def emptyArgs : Args :=
  { epoch := "20151001", telescope := "", instrument := "", site := "",
    camera_type := "", stage := "", raw_path := "/archive/engineering",
    processed_path := "/nethome/supernova/pylcogt", filter := "", binning := "",
    image_type := "", log_level := "info", ncpus := 1 }

/-- A probe telescope row. -/
def probeTel : Telescope :=
  { telescope_id := "1m0-009", site := "lsc", instrument := "kb78", camera_type := "sbig" }

/-- A probe image row. -/
def probeImg : Image :=
  { filter_name := "rp", ccdsum := "2 2", image_type := "EXPOSE" }

/-- Configuration agreeing with `emptyArgs` on the four telescope criteria but
differing in image filter, binning, image type, worker count and log level. -/
def noisyArgs : Args :=
  { emptyArgs with
      filter := "rp", binning := "2x2", image_type := "BIAS",
      log_level := "debug", ncpus := 8 }

/-- Configuration that sets only the image-type criterion. -/
def argsImageType : Args := { emptyArgs with image_type := "BIAS" }

/-- Configuration identical to `emptyArgs` except for the worker-count hint. -/
def argsNcpus4 : Args := { emptyArgs with ncpus := 4 }

/-- Configuration whose epoch expression is unparseable. -/
def argsBadEpoch : Args := { emptyArgs with epoch := "garbage" }

/-- Configuration whose epoch range is inverted (start after end). -/
def argsInverted : Args := { emptyArgs with epoch := "20151002-20151001" }

/-- Concrete selected subset for exercising the dispatch loop: the middle
stage's `run` raises. -/
def wStages : List Stage :=
  [{ name := "make_bias", runFails := false },
   { name := "subtract_bias", runFails := true },
   { name := "trim", runFails := false }]

end PyLCOGT

namespace PyLCOGT

/-- Dispatching a prefix of stages whose `run` calls all return: the loop emits
their construct/invoke events in order and continues into the rest. -/
theorem runLoop_ok_prefix (pre rest : List Stage)
    (h : ∀ s, s ∈ pre → s.runFails = false) :
    runLoop (pre ++ rest) =
      (pre.flatMap stageEvents ++ (runLoop rest).1, (runLoop rest).2) := by
  induction pre with
  | nil => simp
  | cons a pre ih =>
    have ha : a.runFails = false := h a (List.mem_cons_self a pre)
    have ih2 := ih (fun s hs => h s (List.mem_cons_of_mem a hs))
    simp [runLoop, ha, ih2, stageEvents]

/-- Evaluating the embedded code on the range spec `"make_bias-trim"`:
argparse rejects it as an invalid choice, and the branch logic itself raises
`TypeError` instead of returning `[make_bias, subtract_bias, trim]`. -/
theorem C1_range_selection_eval :
    checkStageChoice "make_bias-trim" =
      Except.error (ArgError.invalidChoice "stage" "make_bias-trim") ∧
    stagesToDo "make_bias-trim" = Except.error PyError.typeError := by
  exact ⟨rfl, rfl⟩

/-- Evaluating the embedded code on the inputs of claim C6: an unknown stage
name is rejected by argparse choice validation, but an inverted range
`"trim-make_bias"` is rejected the same way (and the branch logic, if reached,
raises `TypeError`) — no registry-order check producing `InvalidRangeError`
exists anywhere in the code. -/
theorem C6_range_errors_eval :
    checkStageChoice "unknown_stage" =
      Except.error (ArgError.invalidChoice "stage" "unknown_stage") ∧
    checkStageChoice "trim-make_bias" =
      Except.error (ArgError.invalidChoice "stage" "trim-make_bias") ∧
    stagesToDo "trim-make_bias" = Except.error PyError.typeError := by
  exact ⟨rfl, rfl, rfl⟩

/-- C5: an empty range spec returns all ten stages in registry order, and any
single registered stage name yields the singleton list containing exactly it. -/
theorem C5_empty_and_singleton_selection :
    stagesToDo "" = Except.ok ["ingest", "make_bias", "subtract_bias", "trim",
      "make_dark", "subtract_dark", "make_flat", "divide_flat", "solve_wcs",
      "make_catalog"] ∧
    ∀ s : String, s ∈ reduction_stages → stagesToDo s = Except.ok [s] := by
  constructor
  · rfl
  · intro s hs
    fin_cases hs <;> rfl

/-- Witness for C5 at the concrete stage `subtract_bias`. -/
theorem C5_empty_and_singleton_selection_witness :
    stagesToDo "subtract_bias" = Except.ok ["subtract_bias"] :=
  C5_empty_and_singleton_selection.2 "subtract_bias" (by decide)

/-- C8: binning normalization maps each compact form to its native form, is
injective on the two supported values, and leaves already-native values
unchanged (idempotence). -/
theorem C8_binning_normalization :
    ccdsumOf "1x1" = "1 1" ∧ ccdsumOf "2x2" = "2 2" ∧
    ccdsumOf "1x1" ≠ ccdsumOf "2x2" ∧
    ccdsumOf "1 1" = "1 1" ∧ ccdsumOf "2 2" = "2 2" ∧
    ccdsumOf (ccdsumOf "1x1") = ccdsumOf "1x1" ∧
    ccdsumOf (ccdsumOf "2x2") = ccdsumOf "2x2" := by
  refine ⟨rfl, rfl, by decide, rfl, rfl, rfl, rfl⟩

/-- C9: with every optional criterion unset, both query builders yield the
neutral always-true predicate, so every telescope and every image matches. -/
theorem C9_empty_criteria_neutral (args : Args)
    (h1 : args.site = "") (h2 : args.instrument = "") (h3 : args.telescope = "")
    (h4 : args.camera_type = "") (h5 : args.filter = "") (h6 : args.binning = "")
    (_h7 : args.image_type = "") :
    (∀ t, telescope_query args t = true) ∧ (∀ i, image_query args i = true) := by
  constructor
  · intro t
    simp [telescope_query, h1, h2, h3, h4]
  · intro i
    simp [image_query, h5, h6]

/-- Witness for C9 on a concrete empty configuration and concrete probe rows. -/
theorem C9_empty_criteria_neutral_witness :
    telescope_query emptyArgs probeTel = true ∧ image_query emptyArgs probeImg = true :=
  ⟨(C9_empty_criteria_neutral emptyArgs rfl rfl rfl rfl rfl rfl rfl).1 probeTel,
   (C9_empty_criteria_neutral emptyArgs rfl rfl rfl rfl rfl rfl rfl).2 probeImg⟩

/-- C10: the telescope query, and hence the filtered telescope set, depend only
on the site, instrument, telescope-id and camera-type criteria: configurations
agreeing on those four produce identical predicates and identical telescope
sets, whatever their image filter, binning, image type, worker count or log
level. -/
theorem C10_telescope_query_noninterference (a b : Args) (store : List Telescope)
    (hs : a.site = b.site) (hi : a.instrument = b.instrument)
    (ht : a.telescope = b.telescope) (hc : a.camera_type = b.camera_type) :
    telescope_query a = telescope_query b ∧
    telescope_list store a = telescope_list store b := by
  have hq : telescope_query a = telescope_query b := by
    funext t
    simp only [telescope_query, hs, hi, ht, hc]
  exact ⟨hq, by simp [telescope_list, hq]⟩

/-- Witness for C10 on concrete configurations and a concrete store. -/
theorem C10_telescope_query_noninterference_witness :
    telescope_query emptyArgs = telescope_query noisyArgs ∧
    telescope_list [probeTel] emptyArgs = telescope_list [probeTel] noisyArgs :=
  C10_telescope_query_noninterference emptyArgs noisyArgs [probeTel] rfl rfl rfl rfl

/-- C3 evaluation: the image-type criterion is parsed and validated but never
consulted by the query builder — with `image_type` set to `BIAS`, the built
image predicate still accepts an image whose image type is `EXPOSE`; in
general the image predicate is independent of the image-type criterion. -/
theorem C3_image_type_never_constrained :
    argsImageType.image_type = "BIAS" ∧
    probeImg.image_type = "EXPOSE" ∧
    image_query argsImageType probeImg = true ∧
    ∀ (args : Args) (x : String) (i : Image),
      image_query { args with image_type := x } i = image_query args i :=
  ⟨rfl, rfl, rfl, fun _ _ _ => rfl⟩

/-- C2 evaluation: the worker-count hint is parsed but never forwarded — the
stage constructor receives `(raw_path, processed_path, image_query)` and `run`
receives `(epoch_list, telescope_list)`, none of which depends on `ncpus`;
two configurations differing only in `ncpus` issue identical stage calls. -/
theorem C2_ncpus_never_forwarded :
    argsNcpus4 = { emptyArgs with ncpus := 4 } ∧
    emptyArgs.ncpus ≠ argsNcpus4.ncpus ∧
    (∀ store epochs stages,
      dispatchCalls emptyArgs store epochs stages = dispatchCalls argsNcpus4 store epochs stages) ∧
    ∀ (args : Args) (n : Nat) (store : List Telescope) (epochs : List Nat)
      (stages : List String),
      dispatchCalls { args with ncpus := n } store epochs stages =
        dispatchCalls args store epochs stages :=
  ⟨rfl, by decide, fun _ _ _ => rfl, fun _ _ _ _ _ => rfl⟩

/-- C7: the dispatch loop runs stages strictly in subset order; when the stage
at position `k` (0-indexed) raises while all earlier stages returned, the trace
consists exactly of the construct/invoke pairs of stages `0..k` in order (each
earlier stage constructed and invoked exactly once), the error propagates as
the loop's outcome, and no stage after position `k` is ever constructed or
invoked. -/
theorem C7_sequential_abort (stages : List Stage) (k : Nat) (hk : k < stages.length)
    (hnodup : (stages.map Stage.name).Nodup)
    (hbefore : ∀ s, s ∈ stages.take k → s.runFails = false)
    (hfail : stages[k].runFails = true) :
    (runLoop stages).1 = (stages.take (k + 1)).flatMap stageEvents ∧
    (runLoop stages).2 = some stages[k].name ∧
    ∀ s, s ∈ stages.drop (k + 1) →
      Event.construct s.name ∉ (runLoop stages).1 ∧
      Event.invoke s.name ∉ (runLoop stages).1 := by
  have hdrop : stages.drop k = stages[k] :: stages.drop (k + 1) :=
    List.drop_eq_getElem_cons hk
  have key := runLoop_ok_prefix (stages.take k) (stages.drop k) hbefore
  rw [List.take_append_drop, hdrop] at key
  have hhead : runLoop (stages[k] :: stages.drop (k + 1)) =
      (stageEvents stages[k], some stages[k].name) := by
    simp [runLoop, stageEvents, hfail]
  rw [hhead] at key
  have h1 : (runLoop stages).1 = (stages.take (k + 1)).flatMap stageEvents := by
    rw [key]
    rw [← List.take_concat_get' stages k hk, List.flatMap_append]
    simp
  refine ⟨h1, by rw [key], ?_⟩
  intro s hs
  have hmapsplit : stages.map Stage.name =
      (stages.take (k + 1)).map Stage.name ++ (stages.drop (k + 1)).map Stage.name := by
    rw [← List.map_append, List.take_append_drop]
  rw [hmapsplit] at hnodup
  have hdisj := (List.nodup_append.mp hnodup).2.2
  have hname : s.name ∉ (stages.take (k + 1)).map Stage.name :=
    fun hmem => hdisj hmem (List.mem_map_of_mem Stage.name hs)
  constructor
  · rw [h1]
    intro hmem
    rw [List.mem_flatMap] at hmem
    obtain ⟨t, ht, hev⟩ := hmem
    simp only [stageEvents, List.mem_cons, List.mem_singleton] at hev
    rcases hev with hev | hev | hev
    · exact hname ((Event.construct.injEq _ _).mp hev ▸ List.mem_map_of_mem Stage.name ht)
    · exact Event.noConfusion hev
    · exact (List.not_mem_nil _) hev
  · rw [h1]
    intro hmem
    rw [List.mem_flatMap] at hmem
    obtain ⟨t, ht, hev⟩ := hmem
    simp only [stageEvents, List.mem_cons, List.mem_singleton] at hev
    rcases hev with hev | hev | hev
    · exact Event.noConfusion hev
    · exact hname ((Event.invoke.injEq _ _).mp hev ▸ List.mem_map_of_mem Stage.name ht)
    · exact (List.not_mem_nil _) hev

/-- Witness for C7 on a concrete three-stage subset whose middle stage raises:
the first stage is constructed and invoked once, the failing stage's error is
the loop's outcome, and the third stage never appears in the trace. -/
theorem C7_sequential_abort_witness :
    (runLoop wStages).1 = [Event.construct "make_bias", Event.invoke "make_bias",
      Event.construct "subtract_bias", Event.invoke "subtract_bias"] ∧
    (runLoop wStages).2 = some "subtract_bias" := by
  have h := C7_sequential_abort wStages 1 (by decide) (by decide) (by decide) (by decide)
  exact ⟨h.1.trans (by decide), h.2.1.trans (by decide)⟩

/-- C4 counterexample: on an unparseable epoch expression the run does abort
with the epoch error, but the metadata store has already been accessed — the
very first observable action of `main` is a store query (from
`get_telescope_info`, main.py line 85), issued before epoch parsing is even
attempted. -/
theorem C4_store_access_precedes_epoch_parse :
    (mainTrace argsBadEpoch).2 = some MainError.invalidEpoch ∧
    (mainTrace argsBadEpoch).1.head? = some (MainEvent.storeQuery StoreQuery.distinctSites) ∧
    (mainTrace argsBadEpoch).1 ≠ [] := by
  exact ⟨rfl, rfl, by decide⟩

/-- C4 amended: a malformed or inverted epoch expression aborts the run with
the epoch error before the telescope-selection store query and before any
stage dispatch — but after the four discovery queries of `get_telescope_info`,
which always access the store first. -/
theorem C4_epoch_error_before_telescope_query (args : Args) (e : InvalidEpochError)
    (h : parse_epoch_string args.epoch = Except.error e) :
    (mainTrace args).2 = some MainError.invalidEpoch ∧
    (mainTrace args).1 = discoveryEvents ∧
    MainEvent.storeQuery StoreQuery.telescopes ∉ (mainTrace args).1 ∧
    ∀ n, MainEvent.stageDispatch n ∉ (mainTrace args).1 := by
  have htr : mainTrace args = (discoveryEvents, some MainError.invalidEpoch) := by
    unfold mainTrace
    rw [h]
  rw [htr]
  refine ⟨rfl, rfl, by decide, ?_⟩
  intro n
  simp [discoveryEvents]

/-- Witness for the amended C4 on a concrete inverted epoch range. -/
theorem C4_epoch_error_before_telescope_query_witness :
    (mainTrace argsInverted).2 = some MainError.invalidEpoch ∧
    (mainTrace argsInverted).1 = discoveryEvents := by
  have h := C4_epoch_error_before_telescope_query argsInverted
    InvalidEpochError.invalidEpoch rfl
  exact ⟨h.1, h.2.1⟩

end PyLCOGT
